import Mathlib

/-!
# Verification of the BSV script cost estimator

Shallow embedding of `src/libbsv_cost_estimator/src/cost_estimator.cpp` and
`include/bsv/cost_estimator.h`, together with theorems settling the frozen
claims about the estimator.

Modelling conventions:
* C++ `uint32_t` / `uint64_t` / `size_t` values are modelled as `Nat`.
  All quantities involved are guarded by the estimator's limits in the
  intended operating range, and every concrete input used in a
  counterexample or witness stays far below `2 ^ 64`, so machine-word
  wrap-around never occurs on any input these theorems touch.
* C++ `double` coefficients are modelled as `ℚ`.  The single conversion the
  source performs, `static_cast<uint64_t>(double)` on a non-negative value,
  is truncation toward zero, i.e. `Int.toNat ∘ Int.floor` (`truncQ` below);
  for negative inputs the C++ cast is undefined behaviour and `truncQ`
  clamps to `0`.
* `std::vector` becomes `List`; the size stack `std::vector<uint64_t>`
  (top = `back()`) becomes `List Nat` with the top at the head, so
  `push_back`/`pop_back`/`back()` become `cons`/`tail`/`head`.
* The out-of-bounds vector access `tx.inputs[input_index]` that
  `calculate_sighash_size` performs when `ANYONECANPAY` is set is modelled
  with `List.get?`, making the function return `Option Nat`; it is `none`
  exactly on the inputs where the C++ indexing is out of bounds.
* The `while (pc < combined.size())` loop advances `pc` by at least one
  byte per iteration, so it runs at most `combined.length` iterations; it
  is embedded as a fuel recursion started with fuel `combined.length + 1`,
  which therefore never exhausts before the loop condition fails.
-/

namespace BsvCost

attribute [local semireducible] Rat.mul Rat.add Rat.sub Rat.inv Rat.ofScientific

set_option maxRecDepth 100000

/-- Truncation of a non-negative rational to a natural number, the meaning of
`static_cast<uint64_t>` applied to a non-negative `double` in the source. -/
def truncQ (q : ℚ) : Nat := (Int.floor q).toNat

/-! ## Data model (`include/bsv/cost_estimator.h`) -/

/-- Opcode byte values used by the estimator (`enum class OpCode`). -/
def OP_DUP : Nat := 0x76
def OP_SWAP : Nat := 0x7c
def OP_CAT : Nat := 0x7e
def OP_SHA256 : Nat := 0xa8
def OP_HASH256 : Nat := 0xaa
def OP_CHECKSIG : Nat := 0xac
def OP_PUSHDATA1 : Nat := 0x4c
def OP_PUSHDATA2 : Nat := 0x4d
def OP_PUSHDATA4 : Nat := 0x4e

/-- SIGHASH type flags (`enum SigHashType`). -/
def SIGHASH_ALL : Nat := 0x01
def SIGHASH_NONE : Nat := 0x02
def SIGHASH_SINGLE : Nat := 0x03
def SIGHASH_ANYONECANPAY : Nat := 0x80

/-- `struct TxInput`. -/
structure TxInput where
  prevout_hash : List Nat
  prevout_index : Nat
  script_sig : List Nat
  sequence : Nat
deriving DecidableEq

/-- `struct TxOutput`. -/
structure TxOutput where
  value : Nat
  script_pubkey : List Nat
deriving DecidableEq

/-- `struct Transaction`. -/
structure Transaction where
  version : Nat
  inputs : List TxInput
  outputs : List TxOutput
  locktime : Nat
deriving DecidableEq

/-- `struct CostEstimate::Breakdown`. -/
structure Breakdown where
  parsing : Nat := 0
  dispatch : Nat := 0
  stack_ops : Nat := 0
  byte_ops : Nat := 0
  hashing : Nat := 0
  signatures : Nat := 0
  control_flow : Nat := 0
deriving DecidableEq

/-- `struct CostEstimate`. -/
structure CostEstimate where
  total_cycles : Nat := 0
  breakdown : Breakdown := {}
  peak_stack_bytes : Nat := 0
  peak_stack_items : Nat := 0
  signature_count : Nat := 0
  opcode_count : Nat := 0
  warnings : List String := []
deriving DecidableEq

/-- `struct EstimatorLimits`. -/
structure EstimatorLimits where
  max_script_size : Nat
  max_stack_items : Nat
  max_stack_item_size : Nat
  max_opcode_count : Nat
  max_total_cycles : Nat
deriving DecidableEq

/-- The default-constructed `EstimatorLimits` (field initialisers in the
header: 100 MB script, 10 000 stack items, 100 MB stack bytes, 1 000 000
opcodes, 10 B cycles). -/
def default_limits : EstimatorLimits :=
  { max_script_size := 100000000
    max_stack_items := 10000
    max_stack_item_size := 100000000
    max_opcode_count := 1000000
    max_total_cycles := 10000000000 }

/-! ## Cost model (`struct OpcodeCostModel`, `class CostEstimator::Impl`) -/

/-- `OpcodeCostModel::Type`. -/
inductive ModelType where
  | constant
  | linear
  | signature
  | multisig
deriving DecidableEq

/-- `struct OpcodeCostModel` (coefficients are C++ `double`, modelled `ℚ`). -/
structure OpcodeCostModel where
  type : ModelType
  c0 : ℚ := 0
  c1 : ℚ := 0
  c_ecdsa : ℚ := 0
  c_preimage_per_byte : ℚ := 0
  c_keyscan : ℚ := 0
  c_setup : ℚ := 0
  c_alloc : ℚ := 0
deriving DecidableEq

/-- The loaded state of `CostEstimator::Impl`: the two global constants and
the opcode-to-formula map `opcode_costs` (`std::map` lookup modelled as a
function to `Option`). -/
structure CostModel where
  c_dispatch : ℚ := 5
  c_parse_per_byte : ℚ := 4 / 5
  opcode_costs : Nat → Option OpcodeCostModel

/-- `CostEstimator::Impl::calculate_opcode_cost` (cost_estimator.cpp lines
117-159).  Unknown opcodes return the fixed default `100`.  The `(n - m)`
in the multisig formula is C++ `uint64_t` subtraction; the wrap-around form
used here agrees with it for all arguments below `2 ^ 64` (the only
arguments the estimator ever produces are the defaults `m = 1`, `n = 3`). -/
def calculate_opcode_cost (M : CostModel) (op : Nat) (params : List Nat) : Nat :=
  match M.opcode_costs op with
  | none => 100
  | some model =>
    match model.type with
    | ModelType.constant => truncQ model.c0
    | ModelType.linear =>
        let n := params.headD 0
        truncQ (model.c0 + model.c1 * n + model.c_alloc)
    | ModelType.signature =>
        let preimage_size := params.headD 1000
        truncQ (model.c_ecdsa + model.c_preimage_per_byte * preimage_size)
    | ModelType.multisig =>
        let m := params.getD 0 1
        let n := params.getD 1 3
        let preimage_size := params.getD 2 1000
        truncQ (m * (model.c_ecdsa + model.c_preimage_per_byte * preimage_size)
          + (((n + 2 ^ 64) - m) % 2 ^ 64 : Nat) * model.c_keyscan + model.c_setup)

/-! ## Sighash-size oracle (`calculate_sighash_size`, lines 366-405) -/

/-- `calculate_sighash_size`.  Returns `none` exactly when the source would
index `tx.inputs` out of bounds (`ANYONECANPAY` set and `input_index` past
the end); otherwise `some` of the byte count the source computes. -/
def calculate_sighash_size (tx : Transaction) (input_index : Nat)
    (sighash_type : Nat) : Option Nat :=
  let base_type := sighash_type % 32
  let anyone_can_pay := Nat.testBit sighash_type 7
  let inputsSize : Option Nat :=
    if anyone_can_pay then
      (tx.inputs.get? input_index).map
        (fun inp => 1 + 36 + 1 + inp.script_sig.length + 4)
    else
      some (1 + (tx.inputs.map (fun inp => 36 + 1 + inp.script_sig.length + 4)).sum)
  let outputsSize : Nat :=
    if base_type = SIGHASH_SINGLE then
      match tx.outputs.get? input_index with
      | some o => 1 + 8 + 1 + o.script_pubkey.length
      | none => 0
    else if base_type = SIGHASH_NONE then 1
    else 1 + (tx.outputs.map (fun o => 8 + 1 + o.script_pubkey.length)).sum
  inputsSize.map (fun i => 4 + i + outputsSize + 4 + 4)

/-! ## Symbolic executor (`CostEstimator::Impl::estimate`, lines 161-309) -/

/-- The mutable state of the estimation loop: the `result` being built, the
size stack (`std::vector<uint64_t> stack_sizes`, top at the head here), the
running `current_stack_bytes` and the program counter `pc`. -/
structure LoopState where
  result : CostEstimate
  stack_sizes : List Nat
  current_stack_bytes : Nat
  pc : Nat
deriving DecidableEq

/-- The effect of the `switch (op)` statement (lines 226-288) on the stack,
the byte total, the `params` vector, the breakdown and the signature count,
plus the `100` the `default:` arm adds directly to `total_cycles`. -/
structure OpEffect where
  stack : List Nat
  bytes : Nat
  params : List Nat
  bd : Breakdown
  fallback : Nat
  sigs : Nat
deriving DecidableEq

/-- The `switch (op)` of `Impl::estimate`.  Each arm mutates the size stack
only when enough items exist (the C++ guards), records the `params` used by
the final `calculate_opcode_cost` call of the loop body, and folds the
category charge into the breakdown.  Note the `OP_CHECKSIG` arm charges
`breakdown.signatures` with `{preimage_size}` but — exactly as the source,
which never assigns `params` there — leaves `params` empty.  In the `OP_CAT`
and hashing arms the subtractions on `current_stack_bytes` never truncate on
states reachable by the executor, where `current_stack_bytes` is at least
the sum of the stacked sizes. -/
def execOp (M : CostModel) (tx : Transaction) (input_index : Nat) (op : Nat)
    (stack : List Nat) (bytes : Nat) (bd : Breakdown) (sigs : Nat) : OpEffect :=
  if op = OP_DUP then
    match stack with
    | top_size :: rest =>
        { stack := top_size :: top_size :: rest
          bytes := bytes + top_size
          params := [top_size]
          bd := { bd with stack_ops := bd.stack_ops + calculate_opcode_cost M op [top_size] }
          fallback := 0
          sigs := sigs }
    | [] =>
        { stack := []
          bytes := bytes
          params := []
          bd := { bd with stack_ops := bd.stack_ops + calculate_opcode_cost M op [] }
          fallback := 0
          sigs := sigs }
  else if op = OP_SWAP then
    { stack :=
        match stack with
        | a :: b :: rest => b :: a :: rest
        | other => other
      bytes := bytes
      params := []
      bd := { bd with stack_ops := bd.stack_ops + calculate_opcode_cost M op [] }
      fallback := 0
      sigs := sigs }
  else if op = OP_CAT then
    match stack with
    | size_b :: size_a :: rest =>
        { stack := (size_a + size_b) :: rest
          bytes := bytes - size_a - size_b + (size_a + size_b)
          params := [size_a + size_b]
          bd := { bd with byte_ops := bd.byte_ops + calculate_opcode_cost M op [size_a + size_b] }
          fallback := 0
          sigs := sigs }
    | _ =>
        { stack := stack
          bytes := bytes
          params := []
          bd := { bd with byte_ops := bd.byte_ops + calculate_opcode_cost M op [] }
          fallback := 0
          sigs := sigs }
  else if op = OP_SHA256 ∨ op = OP_HASH256 then
    match stack with
    | input_size :: rest =>
        { stack := 32 :: rest
          bytes := bytes - input_size + 32
          params := [input_size]
          bd := { bd with hashing := bd.hashing + calculate_opcode_cost M op [input_size] }
          fallback := 0
          sigs := sigs }
    | [] =>
        { stack := []
          bytes := bytes
          params := []
          bd := { bd with hashing := bd.hashing + calculate_opcode_cost M op [] }
          fallback := 0
          sigs := sigs }
  else if op = OP_CHECKSIG then
    let preimage_size := (calculate_sighash_size tx input_index SIGHASH_ALL).getD 0
    { stack :=
        match stack with
        | _ :: _ :: rest => 1 :: rest
        | other => other
      bytes := bytes
      params := []
      bd := { bd with signatures := bd.signatures + calculate_opcode_cost M op [preimage_size] }
      fallback := 0
      sigs := sigs + 1 }
  else
    { stack := stack
      bytes := bytes
      params := []
      bd := bd
      fallback := 100
      sigs := sigs }

/-- One iteration of the `while (pc < combined.size())` loop, from reading
`op_byte` up to (but not including) the peak updates: opcode count, dispatch
charge, then the push handling (`0 < b < 0x4c` direct push, `0x4c` PUSHDATA1
with a length byte available) or the symbolic opcode execution followed by
`total_cycles += calculate_opcode_cost(op, params)` (line 290). -/
def execIter (M : CostModel) (tx : Transaction) (input_index : Nat)
    (combined : List Nat) (s : LoopState) : LoopState :=
  let op_byte := combined.getD s.pc 0
  let pc1 := s.pc + 1
  let d := truncQ M.c_dispatch
  let res1 : CostEstimate :=
    { s.result with
      opcode_count := s.result.opcode_count + 1
      breakdown := { s.result.breakdown with dispatch := s.result.breakdown.dispatch + d }
      total_cycles := s.result.total_cycles + d }
  if 0 < op_byte ∧ op_byte < 0x4c then
    { result := res1
      stack_sizes := op_byte :: s.stack_sizes
      current_stack_bytes := s.current_stack_bytes + op_byte
      pc := pc1 + op_byte }
  else if op_byte = OP_PUSHDATA1 ∧ pc1 < combined.length then
    let push_size := combined.getD pc1 0
    { result := res1
      stack_sizes := push_size :: s.stack_sizes
      current_stack_bytes := s.current_stack_bytes + push_size
      pc := pc1 + 1 + push_size }
  else
    let eff := execOp M tx input_index op_byte s.stack_sizes s.current_stack_bytes
      res1.breakdown res1.signature_count
    { result :=
        { res1 with
          breakdown := eff.bd
          signature_count := eff.sigs
          total_cycles := res1.total_cycles + eff.fallback
            + calculate_opcode_cost M op_byte eff.params }
      stack_sizes := eff.stack
      current_stack_bytes := eff.bytes
      pc := pc1 }

/-- The estimation loop as a fuel recursion.  Each round: loop condition
`pc < combined.size()`, the opcode-count limit check, the iteration body,
the peak updates, and the two stack-limit checks that `break` with a
warning. -/
def execLoop (M : CostModel) (tx : Transaction) (input_index : Nat)
    (limits : EstimatorLimits) (combined : List Nat) : Nat → LoopState → LoopState
  | 0, s => s
  | fuel + 1, s =>
    if s.pc < combined.length then
      if limits.max_opcode_count ≤ s.result.opcode_count then
        { s with result :=
            { s.result with warnings := s.result.warnings ++ ["Opcode count limit exceeded"] } }
      else
        let s1 := execIter M tx input_index combined s
        let s2 : LoopState :=
          { s1 with result :=
              { s1.result with
                peak_stack_bytes := max s1.result.peak_stack_bytes s1.current_stack_bytes
                peak_stack_items := max s1.result.peak_stack_items s1.stack_sizes.length } }
        if limits.max_stack_item_size < s2.current_stack_bytes then
          { s2 with result :=
              { s2.result with warnings := s2.result.warnings ++ ["Stack byte limit exceeded"] } }
        else if limits.max_stack_items < s2.stack_sizes.length then
          { s2 with result :=
              { s2.result with warnings := s2.result.warnings ++ ["Stack item count limit exceeded"] } }
        else
          execLoop M tx input_index limits combined fuel s2
    else s

/-- `CostEstimator::Impl::estimate` / `CostEstimator::estimate_with_limits`:
concatenate the scripts, reject oversize scripts with the
"Script exceeds size limit" warning and an otherwise zero estimate, charge
the parsing cost, then run the loop. -/
def estimate_with_limits (M : CostModel) (unlocking_script locking_script : List Nat)
    (tx : Transaction) (input_index : Nat) (limits : EstimatorLimits) : CostEstimate :=
  let combined := unlocking_script ++ locking_script
  if limits.max_script_size < combined.length then
    { warnings := ["Script exceeds size limit"] }
  else
    let parsing := truncQ (M.c_parse_per_byte * combined.length)
    let s0 : LoopState :=
      { result := { total_cycles := parsing, breakdown := { parsing := parsing } }
        stack_sizes := []
        current_stack_bytes := 0
        pc := 0 }
    (execLoop M tx input_index limits combined (combined.length + 1) s0).result

/-- `CostEstimator::estimate` (lines 319-327): estimate with a
default-constructed `EstimatorLimits`. -/
def estimate (M : CostModel) (unlocking_script locking_script : List Nat)
    (tx : Transaction) (input_index : Nat) : CostEstimate :=
  estimate_with_limits M unlocking_script locking_script tx input_index default_limits

/-! ## Concrete instances used by the theorems below -/

/-- An opcode map with no entries: every opcode uses the unknown-opcode
fallback of `calculate_opcode_cost`. -/
def emptyCosts : Nat → Option OpcodeCostModel := fun _ => none

/-- The cost model with the source's default constants (`c_dispatch = 5.0`,
`c_parse_per_byte = 0.8`) and no per-opcode entries. -/
def M0 : CostModel := { opcode_costs := emptyCosts }

/-- A transaction with no inputs and no outputs. -/
def tx0 : Transaction := { version := 1, inputs := [], outputs := [], locktime := 0 }

/-- A `signature`-type cost formula with the source's default coefficients
(`c_ecdsa = 85000`, `c_preimage_per_byte = 2.5`). -/
def sigModel : OpcodeCostModel :=
  { type := ModelType.signature, c_ecdsa := 85000, c_preimage_per_byte := 5 / 2 }

/-- A cost model mapping only `OP_CHECKSIG` to `sigModel`. -/
def Msig : CostModel :=
  { opcode_costs := fun op => if op = OP_CHECKSIG then some sigModel else none }

/-- A one-input (1000-byte unlocking script), zero-output transaction; its
`SIGHASH_ALL` preimage size is 1055 bytes. -/
def txSig : Transaction :=
  { version := 1
    inputs := [{ prevout_hash := [], prevout_index := 0,
                 script_sig := List.replicate 1000 0, sequence := 0 }]
    outputs := []
    locktime := 0 }

/-- A one-input, zero-output transaction (so `SIGHASH_SINGLE` at index 0 has
no corresponding output). -/
def txC4 : Transaction :=
  { version := 1
    inputs := [{ prevout_hash := [], prevout_index := 0, script_sig := [], sequence := 0 }]
    outputs := []
    locktime := 0 }

/-- The sighash-size formula exactly as claim C4 states it: in the `SINGLE`
case the 1-byte output count is always present and only the output entry is
conditional on the output existing. -/
def sighash_size_claimed (tx : Transaction) (input_index : Nat) (sighash_type : Nat) : Nat :=
  let base_type := sighash_type % 32
  let anyone_can_pay := Nat.testBit sighash_type 7
  let inputsSize : Nat :=
    if anyone_can_pay then
      1 + (36 + 1 + ((tx.inputs.get? input_index).map
        (fun inp => inp.script_sig.length)).getD 0 + 4)
    else
      1 + (tx.inputs.map (fun inp => 36 + 1 + inp.script_sig.length + 4)).sum
  let outputsSize : Nat :=
    if base_type = SIGHASH_SINGLE then
      1 + (match tx.outputs.get? input_index with
           | some o => 8 + 1 + o.script_pubkey.length
           | none => 0)
    else if base_type = SIGHASH_NONE then 1
    else 1 + (tx.outputs.map (fun o => 8 + 1 + o.script_pubkey.length)).sum
  4 + 4 + 4 + inputsSize + outputsSize

/-- Claim C4's formula amended to what the source computes in the `SINGLE`
case: when the output at `input_index` does not exist, the outputs section
contributes nothing at all — not even the 1-byte count.  (Base types other
than `NONE` and `SINGLE` take the `ALL` branch, as in the source's final
`else`.) -/
def sighash_size_amended (tx : Transaction) (input_index : Nat) (sighash_type : Nat) : Nat :=
  let base_type := sighash_type % 32
  let anyone_can_pay := Nat.testBit sighash_type 7
  let inputsSize : Nat :=
    if anyone_can_pay then
      1 + (36 + 1 + ((tx.inputs.get? input_index).map
        (fun inp => inp.script_sig.length)).getD 0 + 4)
    else
      1 + (tx.inputs.map (fun inp => 36 + 1 + inp.script_sig.length + 4)).sum
  let outputsSize : Nat :=
    if base_type = SIGHASH_SINGLE then
      match tx.outputs.get? input_index with
      | some o => 1 + (8 + 1 + o.script_pubkey.length)
      | none => 0
    else if base_type = SIGHASH_NONE then 1
    else 1 + (tx.outputs.map (fun o => 8 + 1 + o.script_pubkey.length)).sum
  4 + 4 + 4 + inputsSize + outputsSize

/-- Pointwise order on two opcode cost formulas of the same shape: equal
model type and every coefficient of the first bounded by the corresponding
coefficient of the second. -/
def OpcodeCostModel.le (a b : OpcodeCostModel) : Prop :=
  a.type = b.type ∧ a.c0 ≤ b.c0 ∧ a.c1 ≤ b.c1 ∧ a.c_ecdsa ≤ b.c_ecdsa ∧
    a.c_preimage_per_byte ≤ b.c_preimage_per_byte ∧ a.c_keyscan ≤ b.c_keyscan ∧
    a.c_setup ≤ b.c_setup ∧ a.c_alloc ≤ b.c_alloc

/-- Pointwise order on cost models: the two global constants are bounded and
the opcode maps have the same domain with formula-wise bounded entries. -/
def CostModel.le (A B : CostModel) : Prop :=
  A.c_dispatch ≤ B.c_dispatch ∧ A.c_parse_per_byte ≤ B.c_parse_per_byte ∧
    ∀ op : Nat,
      (A.opcode_costs op = none ∧ B.opcode_costs op = none) ∨
      ∃ a b, A.opcode_costs op = some a ∧ B.opcode_costs op = some b ∧ OpcodeCostModel.le a b

/-- The simulation relation for cost-model monotonicity: two loop states
agree on every model-independent component (program counter, size stack,
byte total, counts, peaks, warnings) while the first total cycle count is
bounded by the second. -/
def Rel (s₁ s₂ : LoopState) : Prop :=
  s₁.pc = s₂.pc ∧ s₁.stack_sizes = s₂.stack_sizes ∧
    s₁.current_stack_bytes = s₂.current_stack_bytes ∧
    s₁.result.opcode_count = s₂.result.opcode_count ∧
    s₁.result.signature_count = s₂.result.signature_count ∧
    s₁.result.peak_stack_bytes = s₂.result.peak_stack_bytes ∧
    s₁.result.peak_stack_items = s₂.result.peak_stack_items ∧
    s₁.result.warnings = s₂.result.warnings ∧
    s₁.result.total_cycles ≤ s₂.result.total_cycles

/-- A cost model that dominates `M0` pointwise (larger constants, same empty
opcode map), used to witness the monotonicity theorem. -/
def M2w : CostModel := { c_dispatch := 6, c_parse_per_byte := 1, opcode_costs := emptyCosts }

/-! ## Theorems for the claims -/

/-- Truncation toward zero is monotone. -/
theorem truncQ_mono {a b : ℚ} (h : a ≤ b) : truncQ a ≤ truncQ b :=
  Int.toNat_le_toNat (Int.floor_le_floor h)

set_option maxHeartbeats 2000000 in
/-- `calculate_opcode_cost` is monotone in the cost model: for pointwise
bounded models the cost of any opcode at any parameters is bounded. -/
theorem calculate_opcode_cost_mono {A B : CostModel} (h : CostModel.le A B)
    (op : Nat) (params : List Nat) :
    calculate_opcode_cost A op params ≤ calculate_opcode_cost B op params := by
  obtain ⟨-, -, hop⟩ := h
  rcases hop op with ⟨ha, hb⟩ | ⟨a, b, ha, hb, hab⟩
  · simp [calculate_opcode_cost, ha, hb]
  · obtain ⟨ht, h0, h1, he, hp, hk, hs, hal⟩ := hab
    simp only [calculate_opcode_cost, ha, hb, ← ht]
    cases hty : a.type
    case constant => exact truncQ_mono h0
    case linear =>
      exact truncQ_mono (add_le_add (add_le_add h0
        (mul_le_mul_of_nonneg_right h1 (Nat.cast_nonneg _))) hal)
    case signature =>
      exact truncQ_mono (add_le_add he
        (mul_le_mul_of_nonneg_right hp (Nat.cast_nonneg _)))
    case multisig =>
      exact truncQ_mono (add_le_add (add_le_add
        (mul_le_mul_of_nonneg_left (add_le_add he
          (mul_le_mul_of_nonneg_right hp (Nat.cast_nonneg _))) (Nat.cast_nonneg _))
        (mul_le_mul_of_nonneg_left hk (Nat.cast_nonneg _))) hs)

/-- The `switch` body's stack effect, byte total, `params`, fallback charge
and signature count do not depend on the cost model or on the incoming
breakdown: only the breakdown charges do. -/
theorem execOp_model_indep (A B : CostModel) (tx : Transaction) (ii : Nat) (op : Nat)
    (st : List Nat) (bys : Nat) (bd₁ bd₂ : Breakdown) (sc : Nat) :
    (execOp A tx ii op st bys bd₁ sc).stack = (execOp B tx ii op st bys bd₂ sc).stack ∧
    (execOp A tx ii op st bys bd₁ sc).bytes = (execOp B tx ii op st bys bd₂ sc).bytes ∧
    (execOp A tx ii op st bys bd₁ sc).params = (execOp B tx ii op st bys bd₂ sc).params ∧
    (execOp A tx ii op st bys bd₁ sc).fallback = (execOp B tx ii op st bys bd₂ sc).fallback ∧
    (execOp A tx ii op st bys bd₁ sc).sigs = (execOp B tx ii op st bys bd₂ sc).sigs := by
  unfold execOp
  split_ifs <;> rcases st with _ | ⟨a, _ | ⟨b, rest⟩⟩ <;> simp

/-- `execIter` never touches the warnings list. -/
theorem execIter_warnings (M : CostModel) (tx : Transaction) (ii : Nat)
    (combined : List Nat) (s : LoopState) :
    (execIter M tx ii combined s).result.warnings = s.result.warnings := by
  simp only [execIter]
  split_ifs <;> rfl

/-- One executor iteration preserves the monotonicity simulation: the
model-independent state components stay equal and the running total stays
bounded. -/
theorem execIter_rel {A B : CostModel}
    (hd : A.c_dispatch ≤ B.c_dispatch)
    (hcost : ∀ op params, calculate_opcode_cost A op params ≤ calculate_opcode_cost B op params)
    (tx : Transaction) (ii : Nat) (combined : List Nat)
    {s₁ s₂ : LoopState} (h : Rel s₁ s₂) :
    Rel (execIter A tx ii combined s₁) (execIter B tx ii combined s₂) := by
  obtain ⟨hpc, hst, hby, hoc, hsc, hpb, hpi, hw, htc⟩ := h
  obtain ⟨r₁, st₁, by₁, pc₁⟩ := s₁
  obtain ⟨r₂, st₂, by₂, pc₂⟩ := s₂
  obtain ⟨tc₁, bd₁, pb₁, pi₁, sc₁, oc₁, w₁⟩ := r₁
  obtain ⟨tc₂, bd₂, pb₂, pi₂, sc₂, oc₂, w₂⟩ := r₂
  dsimp only at hpc hst hby hoc hsc hpb hpi hw htc
  subst hpc hst hby hoc hsc hpb hpi hw
  simp only [execIter]
  split_ifs
  · exact ⟨rfl, rfl, rfl, rfl, rfl, rfl, rfl, rfl, add_le_add htc (truncQ_mono hd)⟩
  · exact ⟨rfl, rfl, rfl, rfl, rfl, rfl, rfl, rfl, add_le_add htc (truncQ_mono hd)⟩
  · obtain ⟨he1, he2, he3, he4, he5⟩ :=
      execOp_model_indep A B tx ii (combined.getD pc₁ 0) st₁ by₁
        { bd₁ with dispatch := bd₁.dispatch + truncQ A.c_dispatch }
        { bd₂ with dispatch := bd₂.dispatch + truncQ B.c_dispatch } sc₁
    refine ⟨rfl, he1, he2, rfl, he5, rfl, rfl, rfl, ?_⟩
    rw [he4, he3]
    exact add_le_add (add_le_add (add_le_add htc (truncQ_mono hd)) le_rfl) (hcost _ _)

/-- The estimation loop preserves the monotonicity simulation for any fuel. -/
theorem execLoop_rel {A B : CostModel}
    (hd : A.c_dispatch ≤ B.c_dispatch)
    (hcost : ∀ op params, calculate_opcode_cost A op params ≤ calculate_opcode_cost B op params)
    (tx : Transaction) (ii : Nat) (limits : EstimatorLimits) (combined : List Nat) :
    ∀ (fuel : Nat) {s₁ s₂ : LoopState}, Rel s₁ s₂ →
      Rel (execLoop A tx ii limits combined fuel s₁)
        (execLoop B tx ii limits combined fuel s₂) := by
  intro fuel
  induction fuel with
  | zero => intro s₁ s₂ h; exact h
  | succ n ih =>
    intro s₁ s₂ h
    have hit := execIter_rel hd hcost tx ii combined h
    obtain ⟨hpc, hst, hby, hoc, hsc, hpb, hpi, hw, htc⟩ := h
    obtain ⟨ipc, ist, iby, ioc, isc, ipb, ipi, iw, itc⟩ := hit
    simp only [execLoop]
    rw [← hpc, ← hoc, ← iby, ← ist]
    split_ifs with h1 h2 h3 h4
    · exact ⟨rfl, hst, hby, rfl, hsc, hpb, hpi, by rw [hw], htc⟩
    · exact ⟨ipc, rfl, rfl, ioc, isc, by simp only; rw [ipb], by simp only; rw [ipi],
        by simp only; rw [iw], itc⟩
    · exact ⟨ipc, rfl, rfl, ioc, isc, by simp only; rw [ipb], by simp only; rw [ipi],
        by simp only; rw [iw], itc⟩
    · exact ih ⟨ipc, rfl, rfl, ioc, isc, by simp only; rw [ipb], by simp only; rw [ipi],
        iw, itc⟩
    · exact ⟨hpc, hst, hby, hoc, hsc, hpb, hpi, hw, htc⟩

/-- The loop never pushes the ScriptTooLarge warning string: its three
warning sites emit only the opcode-count, stack-byte and stack-item
messages. -/
theorem execLoop_no_size_warning (M : CostModel) (tx : Transaction) (ii : Nat)
    (limits : EstimatorLimits) (combined : List Nat) :
    ∀ (fuel : Nat) (s : LoopState),
      "Script exceeds size limit" ∉ s.result.warnings →
      "Script exceeds size limit" ∉ (execLoop M tx ii limits combined fuel s).result.warnings := by
  intro fuel
  induction fuel with
  | zero => intro s h; exact h
  | succ n ih =>
    intro s h
    simp only [execLoop]
    split_ifs with h1 h2 h3 h4
    · simp only [List.mem_append, List.mem_singleton]
      rintro (hc | hc)
      · exact h hc
      · exact absurd hc (by decide)
    · simp only [List.mem_append, List.mem_singleton, execIter_warnings]
      rintro (hc | hc)
      · exact h hc
      · exact absurd hc (by decide)
    · simp only [List.mem_append, List.mem_singleton, execIter_warnings]
      rintro (hc | hc)
      · exact h hc
      · exact absurd hc (by decide)
    · refine ih _ ?_
      simp only [execIter_warnings]
      exact h
    · exact h

/-- Claim C6.  If the combined script length exceeds `max_script_size` the
estimator rejects before execution: every numeric field of the returned
estimate is zero and the warnings list is exactly the ScriptTooLarge
warning ("Script exceeds size limit").  At or below the limit (in
particular exactly at it) estimation proceeds and that warning is never
emitted. -/
theorem C6_script_too_large (M : CostModel) (u l : List Nat) (tx : Transaction)
    (input_index : Nat) (L : EstimatorLimits) :
    if L.max_script_size < u.length + l.length then
      estimate_with_limits M u l tx input_index L =
        { total_cycles := 0
          breakdown := ⟨0, 0, 0, 0, 0, 0, 0⟩
          peak_stack_bytes := 0
          peak_stack_items := 0
          signature_count := 0
          opcode_count := 0
          warnings := ["Script exceeds size limit"] }
    else
      "Script exceeds size limit" ∉ (estimate_with_limits M u l tx input_index L).warnings := by
  have hlen : (u ++ l).length = u.length + l.length := List.length_append u l
  split_ifs with hc
  · simp only [estimate_with_limits]
    rw [if_pos (by rw [hlen]; exact hc)]
  · simp only [estimate_with_limits]
    rw [if_neg (by rw [hlen]; exact hc)]
    exact execLoop_no_size_warning M tx input_index L (u ++ l) _ _ (by simp)

/-- Claim C7.  For pointwise ordered cost models (per-opcode coefficients
and the global constants `c_dispatch`, `c_parse_per_byte`), estimation of
the same scripts, transaction, input index and limits yields a
`total_cycles` under the smaller model bounded by that under the larger
model. -/
theorem C7_cost_model_monotonicity (A B : CostModel) (h : CostModel.le A B)
    (u l : List Nat) (tx : Transaction) (input_index : Nat) (L : EstimatorLimits) :
    (estimate_with_limits A u l tx input_index L).total_cycles
      ≤ (estimate_with_limits B u l tx input_index L).total_cycles := by
  have hd := h.1
  have hp := h.2.1
  have hcost := fun op params => calculate_opcode_cost_mono h op params
  simp only [estimate_with_limits]
  split_ifs with hlen
  · exact le_refl _
  · have h0 : Rel
        { result := { total_cycles := truncQ (A.c_parse_per_byte * (u ++ l).length)
                      breakdown := { parsing := truncQ (A.c_parse_per_byte * (u ++ l).length) } }
          stack_sizes := []
          current_stack_bytes := 0
          pc := 0 }
        { result := { total_cycles := truncQ (B.c_parse_per_byte * (u ++ l).length)
                      breakdown := { parsing := truncQ (B.c_parse_per_byte * (u ++ l).length) } }
          stack_sizes := []
          current_stack_bytes := 0
          pc := 0 } :=
      ⟨rfl, rfl, rfl, rfl, rfl, rfl, rfl, rfl,
        truncQ_mono (mul_le_mul_of_nonneg_right hp (Nat.cast_nonneg _))⟩
    exact (execLoop_rel hd hcost tx input_index L (u ++ l)
      ((u ++ l).length + 1) h0).2.2.2.2.2.2.2.2

/-- Witness for `C7_cost_model_monotonicity`: `M0` (dispatch 5, parse 0.8,
empty map) is pointwise below `M2w` (dispatch 6, parse 1, empty map). -/
theorem C7_cost_model_monotonicity_witness :
    (estimate_with_limits M0 [] [0x76, 0xac] tx0 0 default_limits).total_cycles
      ≤ (estimate_with_limits M2w [] [0x76, 0xac] tx0 0 default_limits).total_cycles :=
  C7_cost_model_monotonicity M0 M2w
    ⟨by norm_num [M0, M2w], by norm_num [M0, M2w], fun op => Or.inl ⟨rfl, rfl⟩⟩
    [] [0x76, 0xac] tx0 0 default_limits

/-- Claim C1, evaluated at the failing input.  With a cost model whose
`OP_CHECKSIG` entry is the default `signature` formula, scripts
`unlocking = []`, `locking = [0xac]` and a one-input (1000-byte script_sig),
zero-output transaction, the estimator's `total_cycles` is 87505 while the
seven breakdown categories sum to 87642: the `OP_CHECKSIG` arm charges
`breakdown.signatures` with the real 1055-byte preimage but never assigns
`params`, so line 290 charges the running total with the 1000-byte default
preimage instead.  Since the script contains no unknown opcode, no
non-negative fallback bucket can reconcile a total that is smaller than the
sum of the categories, so the claimed identity fails on the code. -/
theorem C1_checksig_total_breakdown_mismatch :
    (estimate Msig [] [0xac] txSig 0).total_cycles = 87505 ∧
    (estimate Msig [] [0xac] txSig 0).breakdown.parsing
      + (estimate Msig [] [0xac] txSig 0).breakdown.dispatch
      + (estimate Msig [] [0xac] txSig 0).breakdown.stack_ops
      + (estimate Msig [] [0xac] txSig 0).breakdown.byte_ops
      + (estimate Msig [] [0xac] txSig 0).breakdown.hashing
      + (estimate Msig [] [0xac] txSig 0).breakdown.signatures
      + (estimate Msig [] [0xac] txSig 0).breakdown.control_flow = 87642 := by
  decide

/-- Claim C2, evaluated at the failing inputs.  The executor has no case for
opcode bytes `0x4d` (PUSHDATA2) and `0x4e` (PUSHDATA4): they fall into the
unknown-opcode `default:` arm, no length bytes are read and the cursor is
not advanced past any payload, so the length bytes and payload are then
executed as opcodes.  For `locking = [0x4d, 0x01, 0x00, 0xab]` the claim
predicts a single decoded push (opcode count 1); the code counts three
opcodes (`0x4d` unknown, `0x01` a direct push consuming `0x00`, `0xab`
unknown).  For `locking = [0x4e, 0x01, 0x00, 0x00, 0x00, 0xab]` the claim
predicts one push; the code counts five opcodes. -/
theorem C2_pushdata2_pushdata4_misparsed :
    (estimate M0 [] [0x4d, 0x01, 0x00, 0xab] tx0 0).opcode_count = 3 ∧
    (estimate M0 [] [0x4d, 0x01, 0x00, 0xab] tx0 0).total_cycles = 418 ∧
    (estimate M0 [] [0x4e, 0x01, 0x00, 0x00, 0x00, 0xab] tx0 0).opcode_count = 5 ∧
    (estimate M0 [] [0x4e, 0x01, 0x00, 0x00, 0x00, 0xab] tx0 0).total_cycles = 829 := by
  decide

/-- Claim C3, counterexample.  Running `unlocking = []`, `locking = [0x76]`
(a single `OP_DUP` on an empty size stack) under the default constants
produces an empty warnings list: the estimator emits no `Underflow` warning
and does not abort — the claimed warning-and-stop behaviour does not exist
in the code, which merely skips the stack mutation. -/
theorem C3_dup_empty_stack_no_warning :
    (estimate M0 [] [0x76] tx0 0).warnings = [] := by
  decide

/-- Claim C3 as amended.  First part, universal: every switch-handled
opcode that demands more stack items than currently exist (`OP_DUP`,
`OP_SHA256`/`OP_HASH256` on an empty stack; `OP_SWAP`, `OP_CAT`,
`OP_CHECKSIG` with fewer than two items) emits no warning and does not
stop: one iteration leaves the size stack and its byte total unchanged,
advances the program counter past the opcode, counts it, and still charges
`trunc(c_dispatch)` plus the opcode's cost at empty `params` to
`total_cycles`.  Second part, the single-DUP scenario: `unlocking = []`,
`locking = [0x76]` under the default constants counts one opcode with
`dispatch = 5`, charges `stack_ops = 100` (fallback) for a total of 105,
keeps the stack empty and finishes with an empty warnings list. -/
theorem C3_underflow_amended :
    (∀ (M : CostModel) (tx : Transaction) (input_index : Nat) (combined : List Nat)
        (s : LoopState),
      (((combined.getD s.pc 0 = OP_DUP ∨ combined.getD s.pc 0 = OP_SHA256 ∨
            combined.getD s.pc 0 = OP_HASH256) ∧ s.stack_sizes.length < 1) ∨
        ((combined.getD s.pc 0 = OP_SWAP ∨ combined.getD s.pc 0 = OP_CAT ∨
            combined.getD s.pc 0 = OP_CHECKSIG) ∧ s.stack_sizes.length < 2)) →
      (execIter M tx input_index combined s).stack_sizes = s.stack_sizes ∧
      (execIter M tx input_index combined s).current_stack_bytes = s.current_stack_bytes ∧
      (execIter M tx input_index combined s).result.warnings = s.result.warnings ∧
      (execIter M tx input_index combined s).pc = s.pc + 1 ∧
      (execIter M tx input_index combined s).result.opcode_count
        = s.result.opcode_count + 1 ∧
      (execIter M tx input_index combined s).result.total_cycles
        = s.result.total_cycles + truncQ M.c_dispatch
          + calculate_opcode_cost M (combined.getD s.pc 0) []) ∧
    ((estimate M0 [] [0x76] tx0 0).opcode_count = 1 ∧
      (estimate M0 [] [0x76] tx0 0).breakdown.dispatch = 5 ∧
      (estimate M0 [] [0x76] tx0 0).breakdown.stack_ops = 100 ∧
      (estimate M0 [] [0x76] tx0 0).total_cycles = 105 ∧
      (estimate M0 [] [0x76] tx0 0).peak_stack_items = 0 ∧
      (estimate M0 [] [0x76] tx0 0).warnings = []) := by
  constructor
  · intro M tx input_index combined s h
    obtain ⟨r, st, bys, pc⟩ := s
    rcases h with ⟨hb, hlen⟩ | ⟨hb, hlen⟩
    · rcases st with _ | ⟨a, t⟩
      · rcases hb with hb | hb | hb <;>
          simp [execIter, execOp, OP_DUP, OP_SWAP, OP_CAT, OP_SHA256,
            OP_HASH256, OP_CHECKSIG, OP_PUSHDATA1] at hb ⊢ <;>
          simp [hb]
      · simp at hlen
    · rcases st with _ | ⟨a, _ | ⟨b, t⟩⟩
      · rcases hb with hb | hb | hb <;>
          simp [execIter, execOp, OP_DUP, OP_SWAP, OP_CAT, OP_SHA256,
            OP_HASH256, OP_CHECKSIG, OP_PUSHDATA1] at hb ⊢ <;>
          simp [hb]
      · rcases hb with hb | hb | hb <;>
          simp [execIter, execOp, OP_DUP, OP_SWAP, OP_CAT, OP_SHA256,
            OP_HASH256, OP_CHECKSIG, OP_PUSHDATA1] at hb ⊢ <;>
          simp [hb]
      · simp at hlen
        omega
  · exact ⟨by decide, by decide, by decide, by decide, by decide, by decide⟩

/-- Witness for the universal part of `C3_underflow_amended`: `OP_SWAP`
(byte `0x7c`) on an empty size stack in a fresh state. -/
theorem C3_underflow_amended_witness :
    (execIter M0 tx0 0 [0x7c]
        { result := {}, stack_sizes := [], current_stack_bytes := 0, pc := 0 }).stack_sizes = [] ∧
    (execIter M0 tx0 0 [0x7c]
        { result := {}, stack_sizes := [], current_stack_bytes := 0, pc := 0 }).current_stack_bytes = 0 ∧
    (execIter M0 tx0 0 [0x7c]
        { result := {}, stack_sizes := [], current_stack_bytes := 0, pc := 0 }).result.warnings = [] ∧
    (execIter M0 tx0 0 [0x7c]
        { result := {}, stack_sizes := [], current_stack_bytes := 0, pc := 0 }).pc = 0 + 1 ∧
    (execIter M0 tx0 0 [0x7c]
        { result := {}, stack_sizes := [], current_stack_bytes := 0, pc := 0 }).result.opcode_count = 0 + 1 ∧
    (execIter M0 tx0 0 [0x7c]
        { result := {}, stack_sizes := [], current_stack_bytes := 0, pc := 0 }).result.total_cycles
      = 0 + truncQ M0.c_dispatch + calculate_opcode_cost M0 OP_SWAP [] :=
  C3_underflow_amended.1 M0 tx0 0 [0x7c]
    { result := {}, stack_sizes := [], current_stack_bytes := 0, pc := 0 }
    (Or.inr ⟨Or.inl rfl, by decide⟩)

/-- Claim C4, counterexample.  For a one-input, zero-output transaction and
`SIGHASH_SINGLE` at input index 0, the code computes 54 bytes (the guarded
`SINGLE` branch adds nothing when the output does not exist) while the
claim's formula — which always keeps the 1-byte output count — gives 55. -/
theorem C4_single_missing_output_counterexample :
    calculate_sighash_size txC4 0 SIGHASH_SINGLE = some 54 ∧
    sighash_size_claimed txC4 0 SIGHASH_SINGLE = 55 ∧
    calculate_sighash_size txC4 0 SIGHASH_SINGLE
      ≠ some (sighash_size_claimed txC4 0 SIGHASH_SINGLE) := by
  decide

/-- Claim C5, counterexample.  Opcode byte `0x50` is not a push, is not
handled by any switch arm and is absent from the (empty) cost model.  Under
the default constants the claim predicts a contribution of `100 + 5` to
`total_cycles` (parse cost of the 1-byte script is 0), i.e. a total of 105;
the code produces 205, because the 100 fallback is charged twice — once by
the `default:` switch arm and once by `calculate_opcode_cost`'s
unknown-opcode default on line 290. -/
theorem C5_unknown_opcode_charged_twice :
    (estimate M0 [] [0x50] tx0 0).total_cycles = 205 ∧
    (estimate M0 [] [0x50] tx0 0).breakdown.parsing = 0 ∧
    (estimate M0 [] [0x50] tx0 0).breakdown.dispatch = 5 := by
  decide

/-- Claim C5 as amended.  An opcode byte that is not a push, is not one of
the switch-handled opcodes and is not in the cost model leaves the size
stack (and its byte total) unchanged and adds exactly
`trunc(c_dispatch) + 200` to `total_cycles`: the 100 fallback is charged by
the `default:` arm and charged again by the line-290
`calculate_opcode_cost` call. -/
theorem C5_unknown_opcode_amended (M : CostModel) (tx : Transaction) (input_index : Nat)
    (combined : List Nat) (s : LoopState)
    (h1 : ¬(0 < combined.getD s.pc 0 ∧ combined.getD s.pc 0 < 0x4c))
    (h2 : ¬(combined.getD s.pc 0 = OP_PUSHDATA1 ∧ s.pc + 1 < combined.length))
    (h3 : combined.getD s.pc 0 ≠ OP_DUP)
    (h4 : combined.getD s.pc 0 ≠ OP_SWAP)
    (h5 : combined.getD s.pc 0 ≠ OP_CAT)
    (h6 : combined.getD s.pc 0 ≠ OP_SHA256)
    (h7 : combined.getD s.pc 0 ≠ OP_HASH256)
    (h8 : combined.getD s.pc 0 ≠ OP_CHECKSIG)
    (hm : M.opcode_costs (combined.getD s.pc 0) = none) :
    (execIter M tx input_index combined s).stack_sizes = s.stack_sizes ∧
    (execIter M tx input_index combined s).current_stack_bytes = s.current_stack_bytes ∧
    (execIter M tx input_index combined s).result.total_cycles
      = s.result.total_cycles + truncQ M.c_dispatch + 200 := by
  simp only [execIter, execOp]
  rw [if_neg h1, if_neg h2, if_neg h3, if_neg h4, if_neg h5,
    if_neg (not_or.mpr ⟨h6, h7⟩), if_neg h8]
  simp only [calculate_opcode_cost, hm]
  exact ⟨trivial, trivial, trivial⟩

/-- Witness for `C5_unknown_opcode_amended` at the concrete inputs of the
counterexample scenario (model `M0`, script `[0x50]`, fresh state). -/
theorem C5_unknown_opcode_amended_witness :
    (execIter M0 tx0 0 [0x50]
        { result := {}, stack_sizes := [], current_stack_bytes := 0, pc := 0 }).stack_sizes = [] ∧
    (execIter M0 tx0 0 [0x50]
        { result := {}, stack_sizes := [], current_stack_bytes := 0, pc := 0 }).current_stack_bytes = 0 ∧
    (execIter M0 tx0 0 [0x50]
        { result := {}, stack_sizes := [], current_stack_bytes := 0, pc := 0 }).result.total_cycles
      = 0 + truncQ M0.c_dispatch + 200 :=
  C5_unknown_opcode_amended M0 tx0 0 [0x50]
    { result := {}, stack_sizes := [], current_stack_bytes := 0, pc := 0 }
    (by decide) (by decide) (by decide) (by decide) (by decide) (by decide)
    (by decide) (by decide) rfl

/-- Claim C4 as amended.  Whenever the source's unchecked input access is in
bounds (`ANYONECANPAY` implies `input_index < #inputs`),
`calculate_sighash_size` returns exactly the claimed formula with the
`SINGLE` case repaired: the outputs section for `SINGLE` is
`1 + (8 + 1 + len(script_pubkey))` of the output at `input_index` when it
exists and contributes nothing (not even the count byte) otherwise. -/
theorem C4_sighash_size_amended (tx : Transaction) (input_index : Nat) (sighash_type : Nat)
    (h : Nat.testBit sighash_type 7 = true → input_index < tx.inputs.length) :
    calculate_sighash_size tx input_index sighash_type
      = some (sighash_size_amended tx input_index sighash_type) := by
  unfold calculate_sighash_size sighash_size_amended
  cases hb : Nat.testBit sighash_type 7
  · simp only [hb, Bool.false_eq_true, if_false, Option.map_some']
    congr 1
    split_ifs
    · cases hg : tx.outputs.get? input_index <;> simp [hg] <;> omega
    · omega
    · omega
  · have hlt := h hb
    obtain ⟨inp, hinp⟩ : ∃ inp, tx.inputs.get? input_index = some inp := by
      rw [List.get?_eq_getElem?]
      exact ⟨_, List.getElem?_eq_getElem hlt⟩
    simp only [hb, if_true, hinp, Option.map_some', Option.getD_some]
    congr 1
    split_ifs
    · cases hg : tx.outputs.get? input_index <;> simp [hg] <;> omega
    · omega
    · omega

/-- Witness for `C4_sighash_size_amended`: `ANYONECANPAY | ALL` (flags
`0x81`) on a one-input transaction at index 0. -/
theorem C4_sighash_size_amended_witness :
    calculate_sighash_size txC4 0 (SIGHASH_ANYONECANPAY + SIGHASH_ALL)
      = some (sighash_size_amended txC4 0 (SIGHASH_ANYONECANPAY + SIGHASH_ALL)) :=
  C4_sighash_size_amended txC4 0 (SIGHASH_ANYONECANPAY + SIGHASH_ALL) (by decide)

/-- Claim C10.  The embedded `calculate_sighash_size` is defined (`some`)
exactly when `ANYONECANPAY` implies `input_index < #inputs`: the only
unchecked vector access in the source is `tx.inputs[input_index]` in the
`ANYONECANPAY` branch, while the `SINGLE` output access is guarded by
`input_index < tx.outputs.size()`, so without `ANYONECANPAY` the function
is total for every index. -/
theorem C10_sighash_well_defined (tx : Transaction) (input_index : Nat) (sighash_type : Nat) :
    (calculate_sighash_size tx input_index sighash_type).isSome = true ↔
      (Nat.testBit sighash_type 7 = true → input_index < tx.inputs.length) := by
  unfold calculate_sighash_size
  cases hb : Nat.testBit sighash_type 7
  · simp [hb]
  · simp only [hb, if_true, Option.isSome_map']
    rw [List.get?_eq_getElem?]
    cases Nat.lt_or_ge input_index tx.inputs.length with
    | inl hlt => simp [List.getElem?_eq_getElem hlt, hlt]
    | inr hge => simp [List.getElem?_eq_none hge, Nat.not_lt.mpr hge]

/-- Claim C8.  The estimator is deterministic: two calls with equal cost
models, scripts, transactions, input indices and limits return equal
`CostEstimate`s — in particular equal breakdowns and equal warning lists in
their order of emission. -/
theorem C8_determinism (M₁ M₂ : CostModel) (u₁ u₂ l₁ l₂ : List Nat)
    (tx₁ tx₂ : Transaction) (i₁ i₂ : Nat) (L₁ L₂ : EstimatorLimits)
    (hM : M₁ = M₂) (hu : u₁ = u₂) (hl : l₁ = l₂) (htx : tx₁ = tx₂)
    (hi : i₁ = i₂) (hL : L₁ = L₂) :
    estimate_with_limits M₁ u₁ l₁ tx₁ i₁ L₁ = estimate_with_limits M₂ u₂ l₂ tx₂ i₂ L₂ ∧
    (estimate_with_limits M₁ u₁ l₁ tx₁ i₁ L₁).breakdown
      = (estimate_with_limits M₂ u₂ l₂ tx₂ i₂ L₂).breakdown ∧
    (estimate_with_limits M₁ u₁ l₁ tx₁ i₁ L₁).warnings
      = (estimate_with_limits M₂ u₂ l₂ tx₂ i₂ L₂).warnings := by
  subst hM hu hl htx hi hL
  exact ⟨rfl, rfl, rfl⟩

/-- Witness for `C8_determinism` at concrete identical inputs. -/
theorem C8_determinism_witness :
    estimate_with_limits M0 [] [0x76] tx0 0 default_limits
      = estimate_with_limits M0 [] [0x76] tx0 0 default_limits ∧
    (estimate_with_limits M0 [] [0x76] tx0 0 default_limits).breakdown
      = (estimate_with_limits M0 [] [0x76] tx0 0 default_limits).breakdown ∧
    (estimate_with_limits M0 [] [0x76] tx0 0 default_limits).warnings
      = (estimate_with_limits M0 [] [0x76] tx0 0 default_limits).warnings :=
  C8_determinism M0 M0 [] [] [0x76] [0x76] tx0 tx0 0 0 default_limits default_limits
    rfl rfl rfl rfl rfl rfl

/-- Claim C9.  `CostEstimator::estimate` returns exactly what
`estimate_with_limits` returns on a default-constructed `EstimatorLimits`,
whose fields are 100000000, 10000, 100000000, 1000000 and 10000000000. -/
theorem C9_estimate_uses_default_limits :
    default_limits.max_script_size = 100000000 ∧
    default_limits.max_stack_items = 10000 ∧
    default_limits.max_stack_item_size = 100000000 ∧
    default_limits.max_opcode_count = 1000000 ∧
    default_limits.max_total_cycles = 10000000000 ∧
    ∀ (M : CostModel) (u l : List Nat) (tx : Transaction) (i : Nat),
      estimate M u l tx i = estimate_with_limits M u l tx i default_limits :=
  ⟨rfl, rfl, rfl, rfl, rfl, fun _ _ _ _ _ => rfl⟩

end BsvCost
